import Mathlib

/-!
Verification development for the supabase data-access layer of the
echoaisync application (server utilities in the repository source,
principally the credit-balance computation, the job queries and
mutators, and the OAuth callback route).

Modelling conventions:
* The remote relational store is a `DB` value: the rows visible to the
  current session. Row types mirror the columns the code touches; the
  nested select of `subscriptions` with `prices(*, products(*))` is
  modelled by storing the joined price/product on the subscription row.
* Every exported function is embedded as `DB → Failures → DB × result`:
  the pair threads the store state so that read-only-ness is a provable
  statement. Select queries return the store unchanged, which is what a
  select does.
* `Failures` is an oracle saying which of the underlying queries fails
  on this run; the code catches every failure and converts it to a
  sentinel (null, empty list, or success=false), which the embedding
  mirrors.
* Numbers are integers. The JS `Number(...)` coercion can produce NaN,
  so credit allotments live in `JsNum`: an exact integer, NaN, or
  `other` for a number that is not an integer (a finite fraction or an
  infinity, not distinguished further). String parsing follows the full
  StringNumericLiteral grammar (decimal with fraction and exponent,
  hex, octal, binary, Infinity); values are exact, so IEEE rounding and
  overflow are not modelled, and only ASCII whitespace is trimmed.
* Nullable columns are `Option` fields. The TS call sites cast nullable
  columns with `as string`; at runtime a null flows through unchanged,
  and a filter against a null argument matches no rows, which the
  embedding mirrors.
-/

/-! ## JSON values and the JS Number coercion -/

/-- JSON values as stored in the product metadata column. -/
inductive Json where
  | null : Json
  | bool (b : Bool) : Json
  | num (v : Int) : Json
  | str (s : String) : Json
  | obj (fields : List (String × Json)) : Json
  | arr (elems : List Json) : Json
deriving Repr, BEq

/-- ASCII whitespace and line terminators stripped by the JS Number coercion. -/
def wsChar (c : Char) : Bool := c.toNat = 32 || (9 ≤ c.toNat && c.toNat ≤ 13)

/-- Strip leading and trailing whitespace from a character list. -/
def trimChars (cs : List Char) : List Char :=
  ((cs.dropWhile wsChar).reverse.dropWhile wsChar).reverse

/-- Outcome of parsing a string with the JS StringNumericLiteral
grammar: a numeric literal with an integral value, a numeric literal
whose value is not an integer (a finite fraction or an infinity), or
not a numeric literal at all (which the Number coercion maps to NaN). -/
inductive JsParse where
  | int (v : Int) : JsParse
  | nonInt : JsParse
  | nan : JsParse
deriving Repr, DecidableEq

/-- Value of a decimal digit character. -/
def decDigitVal (c : Char) : Nat := c.toNat - 48

/-- Hexadecimal digit recognizer. -/
def isHexDigitCh (c : Char) : Bool :=
  c.isDigit || (65 ≤ c.toNat && c.toNat ≤ 70) || (97 ≤ c.toNat && c.toNat ≤ 102)

/-- Value of a hexadecimal digit character. -/
def hexDigitVal (c : Char) : Nat :=
  if c.isDigit then c.toNat - 48
  else if 65 ≤ c.toNat && c.toNat ≤ 70 then c.toNat - 55
  else c.toNat - 87

/-- Octal digit recognizer. -/
def isOctDigitCh (c : Char) : Bool := 48 ≤ c.toNat && c.toNat ≤ 55

/-- Binary digit recognizer. -/
def isBinDigitCh (c : Char) : Bool := c.toNat = 48 || c.toNat = 49

/-- Fold a digit list into its value in the given base. -/
def foldDigits (base : Nat) (dval : Char → Nat) (ds : List Char) : Nat :=
  ds.foldl (fun n c => n * base + dval c) 0

/-- Parse the decimal part of a StrDecimalLiteral after the sign:
digits, an optional fraction, and an optional exponent. The exact value
is sign times mantissa times a power of ten; it is reported as `int`
when integral and `nonInt` otherwise, and anything outside the grammar
is `nan`. -/
def parseDecimalBody (sign : Int) (body : List Char) : JsParse :=
  let intDigits := body.takeWhile Char.isDigit
  let rest1 := body.dropWhile Char.isDigit
  let fracDigits :=
    match rest1 with
    | '.' :: r => r.takeWhile Char.isDigit
    | _ => []
  let rest2 :=
    match rest1 with
    | '.' :: r => r.dropWhile Char.isDigit
    | _ => rest1
  if intDigits.isEmpty && fracDigits.isEmpty then .nan
  else
    let expOpt : Option Int :=
      match rest2 with
      | [] => some 0
      | e :: r =>
        if e == 'e' || e == 'E' then
          match r with
          | '+' :: ds =>
            if !ds.isEmpty && ds.all Char.isDigit then
              some (foldDigits 10 decDigitVal ds) else none
          | '-' :: ds =>
            if !ds.isEmpty && ds.all Char.isDigit then
              some (-(foldDigits 10 decDigitVal ds : Int)) else none
          | ds =>
            if !ds.isEmpty && ds.all Char.isDigit then
              some (foldDigits 10 decDigitVal ds) else none
        else none
    match expOpt with
    | none => .nan
    | some exp =>
      let n : Nat := foldDigits 10 decDigitVal (intDigits ++ fracDigits)
      let e : Int := exp - fracDigits.length
      if n = 0 then .int 0
      else if 0 ≤ e then .int (sign * n * (10 : Int) ^ e.toNat)
      else if n % 10 ^ (-e).toNat = 0 then
        .int (sign * ((n / 10 ^ (-e).toNat : Nat) : Int))
      else .nonInt

/-- Parse a signed decimal literal body: the Infinity keyword or a
decimal literal. -/
def parseSignedBody (sign : Int) (body : List Char) : JsParse :=
  if body = "Infinity".data then .nonInt
  else parseDecimalBody sign body

/-- Split the optional sign of a StrDecimalLiteral. -/
def parseSigned (cs : List Char) : JsParse :=
  match cs with
  | '+' :: body => parseSignedBody 1 body
  | '-' :: body => parseSignedBody (-1) body
  | body => parseSignedBody 1 body

/-- Parse a trimmed nonempty StrNumericLiteral: an unsigned hex, octal
or binary literal, or a signed decimal literal. -/
def parseStrNumericLiteral (cs : List Char) : JsParse :=
  match cs with
  | '0' :: x :: rest =>
    if x == 'x' || x == 'X' then
      if !rest.isEmpty && rest.all isHexDigitCh then
        .int (foldDigits 16 hexDigitVal rest) else .nan
    else if x == 'o' || x == 'O' then
      if !rest.isEmpty && rest.all isOctDigitCh then
        .int (foldDigits 8 decDigitVal rest) else .nan
    else if x == 'b' || x == 'B' then
      if !rest.isEmpty && rest.all isBinDigitCh then
        .int (foldDigits 2 decDigitVal rest) else .nan
    else parseSigned cs
  | _ => parseSigned cs

/-- JS string-to-number along the StringNumericLiteral grammar: the
trimmed empty string is 0, a numeric literal gives its exact value
(`int` when integral, `nonInt` for fractions and infinities), and any
other string is `nan`. IEEE rounding and overflow to Infinity are not
modelled (values are exact), and only ASCII whitespace is trimmed. -/
def parseJsNumberStr (s : String) : JsParse :=
  match trimChars s.data with
  | [] => .int 0
  | cs => parseStrNumericLiteral cs

/-- A JS number as far as this development tracks it: an exact integer
value, some number that is not an integer (a finite non-integral value
or an infinity, not distinguished further), or NaN. -/
inductive JsNum where
  | num (v : Int) : JsNum
  | other : JsNum
  | nan : JsNum
deriving Repr, DecidableEq

/-- JS subtraction as used by the source, where the right operand is
always an integer credits sum: integer minus integer is exact, a
non-integer operand keeps the result non-integer (a fraction stays a
fraction, an infinity stays an infinity), and NaN is absorbing. The
case of two non-integer operands never arises in this development and
falls to the NaN arm. -/
def JsNum.sub : JsNum → JsNum → JsNum
  | .num a, .num b => .num (a - b)
  | .other, .num _ => .other
  | .num _, .other => .other
  | _, _ => .nan

mutual

/-- String conversion of a JSON value as an array element in the JS
array-join used by the number coercion: null becomes the empty string,
objects become the object placeholder, arrays join recursively. -/
def elemStr : Json → String
  | .null => ""
  | .bool b => if b then "true" else "false"
  | .num v => toString v
  | .str s => s
  | .obj _ => "[object Object]"
  | .arr es => joinElems es

/-- Comma-join of array elements, as in the JS array toString. -/
def joinElems : List Json → String
  | [] => ""
  | [e] => elemStr e
  | e :: e2 :: rest => elemStr e ++ "," ++ joinElems (e2 :: rest)

end

/-- The JS `Number(v)` coercion on a JSON value: null is 0, booleans are
0 or 1, strings parse or give NaN, plain objects give NaN, arrays
coerce through their joined string form. -/
def jsNumber : Json → JsNum
  | .null => .num 0
  | .bool b => .num (if b then 1 else 0)
  | .num v => .num v
  | .str s =>
    match parseJsNumberStr s with
    | .int v => .num v
    | .nonInt => .other
    | .nan => .nan
  | .obj _ => .nan
  | .arr es =>
    match parseJsNumberStr (joinElems es) with
    | .int v => .num v
    | .nonInt => .other
    | .nan => .nan

/-! ## Row types and store state -/

/-- A row of the users table (only the id is consumed by this layer). -/
structure User where
  id : String
deriving Repr, DecidableEq

/-- A product row as joined through the subscription select; the code
only reads its metadata. A SQL NULL metadata column is `Json.null`. -/
structure Product where
  metadata : Json
deriving Repr, BEq

/-- A price row as joined through the subscription select: it carries
its product (absent when the foreign key is null). -/
structure Price where
  products : Option Product
deriving Repr, BEq

/-- A subscription row with the joined price and product, as returned
by the select of subscriptions with prices and products. -/
structure SubRow where
  user_id : Option String
  status : String
  current_period_start : Option String
  current_period_end : Option String
  prices : Option Price
deriving Repr, BEq

/-- A row of the jobs table with the columns this layer touches. -/
structure Job where
  id : String
  user_id : Option String
  status : String
  created_at : String
  credits : Option Int
  is_deleted : Option Bool
  original_video_url : Option String
  transcription_id : Option String
deriving Repr, DecidableEq

/-- The visible state of the remote store: the rows each table returns
to this session, plus the id counter and clock the store uses when
inserting. -/
structure DB where
  users : List User
  subscriptions : List SubRow
  jobs : List Job
  nextId : Nat
  now : String
deriving Repr

/-- Which of the underlying queries fail on this run. The code catches
every failure and converts it to a sentinel, so a failure never
escapes; this oracle lets the theorems quantify over failure modes. -/
structure Failures where
  subFail : Bool
  userFail : Bool
  jobsBetweenFail : Bool
  getJobsFail : Bool
  insertFail : Bool
  updateFail : Bool
  updateByUrlFail : Bool
  updateByTidFail : Bool
deriving Repr, DecidableEq

/-- The credit-balance result shape. -/
structure Balance where
  remaining : JsNum
  outOf : JsNum
deriving Repr, DecidableEq

/-- The result shape of the unfiltered job listing. -/
structure GetJobsResult where
  success : Bool
  data : Option (List Job)
deriving Repr, DecidableEq

/-! ## String order and the created_at sort -/

/-- Lexicographic order on character lists by code point, matching the
string comparison the store applies to ISO timestamp columns. -/
def charListLe : List Char → List Char → Bool
  | [], _ => true
  | _ :: _, [] => false
  | a :: as, b :: bs =>
    if a.toNat < b.toNat then true
    else if b.toNat < a.toNat then false
    else charListLe as bs

/-- Lexicographic string order. -/
def strLe (a b : String) : Bool := charListLe a.data b.data

/-- Insert a job into a list kept in descending created_at order. -/
def insertByDesc (j : Job) : List Job → List Job
  | [] => [j]
  | k :: ks =>
    if strLe k.created_at j.created_at then j :: k :: ks
    else k :: insertByDesc j ks

/-- Sort jobs by created_at descending, as the order clause of the
job-listing queries requests. -/
def sortByCreatedAtDesc : List Job → List Job
  | [] => []
  | j :: js => insertByDesc j (sortByCreatedAtDesc js)

/-! ## Read queries -/

/-- Source getUserDetails: select the single users row; a failure or a
row count other than one yields null. -/
def getUserDetails (db : DB) (f : Failures) : DB × Option User :=
  (db,
    if f.userFail then none
    else
      match db.users with
      | [u] => some u
      | _ => none)

/-- The status filter of the subscription lookup: status in
trialing or active. -/
def activeLike (s : SubRow) : Bool := s.status == "trialing" || s.status == "active"

/-- Source getSubscription: select the subscription with joined price
and product, filtered to trialing or active status, with maybeSingle
semantics: zero rows yield null, more than one row is an error which
the catch converts to null, as is a query failure. -/
def getSubscription (db : DB) (f : Failures) : DB × Option SubRow :=
  (db,
    if f.subFail then none
    else
      match db.subscriptions.filter activeLike with
      | [s] => some s
      | _ => none)

/-- Source getJobs: the unfiltered job listing ordered by created_at
descending; a failure is caught and returned as success=false. -/
def getJobs (db : DB) (f : Failures) : DB × GetJobsResult :=
  (db,
    if f.getJobsFail then { success := false, data := none }
    else { success := true, data := some (sortByCreatedAtDesc db.jobs) })

/-- Row predicate of the getJobsBetweenDates query: user_id equal to
the argument and created_at within the closed range. A null argument
(flowing through an `as string` cast) matches no rows. -/
def betweenPredicate (userId startDate endDate : Option String) (j : Job) : Bool :=
  (match userId with
   | some u => j.user_id == some u
   | none => false) &&
  (match startDate with
   | some s => strLe s j.created_at
   | none => false) &&
  (match endDate with
   | some e => strLe j.created_at e
   | none => false)

/-- Source getJobsBetweenDates: jobs of one user inside a closed
created_at range; a failure is caught and yields null. -/
def getJobsBetweenDates (db : DB) (f : Failures)
    (userId startDate endDate : Option String) : DB × Option (List Job) :=
  (db,
    if f.jobsBetweenFail then none
    else some (db.jobs.filter (betweenPredicate userId startDate endDate)))

/-! ## Credit-balance computation -/

/-- Credit cost of one job in the spent sum: the source folds with
`job.credits || 0`, so a null credits column contributes 0 (and a zero
value contributes 0, which is the same number). -/
def jobCredit (j : Job) : Int :=
  match j.credits with
  | none => 0
  | some v => if v = 0 then 0 else v

/-- The credits-spent reduce of the source: fold the job list with
`sum + (job.credits || 0)` from 0. -/
def sumCredits (js : List Job) : Int :=
  js.foldl (fun sum j => sum + jobCredit j) 0

/-- The subscription-tier allotment of the source: read the metadata of
the joined product through optional chaining, accept it only when it is
a truthy object carrying a credits key, then coerce
`metadata?.credits ?? 0` with the JS Number coercion. An absent key or
a present null value falls back to 0 through the nullish coalescing;
any other value goes through `jsNumber` and can be NaN. -/
def subscriptionAllotment (sub : SubRow) : JsNum :=
  match (sub.prices.bind Price.products).map Product.metadata with
  | some (Json.obj fields) =>
    match fields.lookup "credits" with
    | some Json.null => JsNum.num 0
    | some v => jsNumber v
    | none => JsNum.num 0
  | _ => JsNum.num 0

/-- The subscription-tier allotment of the older draft variant of the
same module (part_001 of the source): it computes the Number coercion
of `metadata?.credits` with no nullish fallback, so an undefined or
null metadata chain, a non-object metadata value, or a missing credits
key all reach `Number(undefined)`, which is NaN; only a present credits
value is coerced (a present JSON null gives `Number(null)`, which
is 0). -/
def subscriptionAllotmentV1 (sub : SubRow) : JsNum :=
  match (sub.prices.bind Price.products).map Product.metadata with
  | some (Json.obj fields) =>
    match fields.lookup "credits" with
    | some v => jsNumber v
    | none => JsNum.nan
  | _ => JsNum.nan

/-- Source getCreditBalance: with a subscription, allotment minus the
in-period spent sum; with none, the free-tier 7500 minus the spent sum
over the unfiltered listing (0 when the listing failed). -/
def getCreditBalance (db : DB) (f : Failures) : DB × Balance :=
  let (db, subscription) := getSubscription db f
  match subscription with
  | some sub =>
    let subscriptionCredits := subscriptionAllotment sub
    let (db, jobs) := getJobsBetweenDates db f
      sub.user_id sub.current_period_start sub.current_period_end
    let creditsSpent : Int :=
      match jobs with
      | some js => sumCredits js
      | none => 0
    (db, { remaining := subscriptionCredits.sub (JsNum.num creditsSpent),
           outOf := subscriptionCredits })
  | none =>
    let defaultCredits : Int := 7500
    let (db, r) := getJobs db f
    let creditsSpent : Int :=
      if r.success then sumCredits (r.data.getD []) else 0
    (db, { remaining := JsNum.num (defaultCredits - creditsSpent),
           outOf := JsNum.num defaultCredits })

/-! ## Job mutators -/

/-- An arbitrary field-update map as passed to the update calls: a
present entry overwrites that column, an absent entry leaves it. The
layer performs no validation of the map. -/
structure JobUpdate where
  id : Option String := none
  user_id : Option (Option String) := none
  status : Option String := none
  created_at : Option String := none
  credits : Option (Option Int) := none
  is_deleted : Option (Option Bool) := none
  original_video_url : Option (Option String) := none
  transcription_id : Option (Option String) := none
deriving Repr, DecidableEq

/-- Apply an update map to one row: present fields overwrite. -/
def applyUpdate (u : JobUpdate) (j : Job) : Job :=
  { id := u.id.getD j.id
    user_id := u.user_id.getD j.user_id
    status := u.status.getD j.status
    created_at := u.created_at.getD j.created_at
    credits := u.credits.getD j.credits
    is_deleted := u.is_deleted.getD j.is_deleted
    original_video_url := u.original_video_url.getD j.original_video_url
    transcription_id := u.transcription_id.getD j.transcription_id }

/-- Run one update statement: rewrite every row matching the predicate
with the map and return the new store together with the rewritten rows,
as the update-with-select of the source does. A failure mutates nothing
and the catch returns the empty array. -/
def runUpdate (db : DB) (fail : Bool) (pred : Job → Bool) (u : JobUpdate) :
    DB × List Job :=
  if fail then (db, [])
  else
    ({ db with jobs := db.jobs.map (fun j => if pred j then applyUpdate u j else j) },
     (db.jobs.filter pred).map (applyUpdate u))

/-- Source insertJob: look up the session user (null on failure), build
the payload with `user?.id` (undefined when the lookup failed) and
status pending, and insert it; the store fills id and created_at, the
other columns default to null. A failed insert returns the empty array
and mutates nothing. The user lookup failing does not short-circuit the
insert. -/
def insertJob (db : DB) (f : Failures) : DB × List Job :=
  let (db, user) := getUserDetails db f
  let jobPayload : Option String × String := (user.map User.id, "pending")
  let newJob : Job :=
    { id := toString db.nextId
      user_id := jobPayload.1
      status := jobPayload.2
      created_at := db.now
      credits := none
      is_deleted := none
      original_video_url := none
      transcription_id := none }
  if f.insertFail then (db, [])
  else ({ db with jobs := db.jobs ++ [newJob], nextId := db.nextId + 1 }, [newJob])

/-- Source updateJob: update the rows whose id equals the argument. -/
def updateJob (jobId : String) (u : JobUpdate) (db : DB) (f : Failures) :
    DB × List Job :=
  runUpdate db f.updateFail (fun j => j.id == jobId) u

/-- Source updateJobByOriginalVideoUrl: update the rows whose
original_video_url column equals the argument. -/
def updateJobByOriginalVideoUrl (url : String) (u : JobUpdate) (db : DB)
    (f : Failures) : DB × List Job :=
  runUpdate db f.updateByUrlFail (fun j => j.original_video_url == some url) u

/-- Source updateJobByTranscriptionId: update the rows whose
transcription_id column equals the argument, through the service-role
client (the privileged credential does not change row semantics in this
model, only which rows are visible, which `db` already fixes). -/
def updateJobByTranscriptionId (tid : String) (u : JobUpdate) (db : DB)
    (f : Failures) : DB × List Job :=
  runUpdate db f.updateByTidFail (fun j => j.transcription_id == some tid) u

/-! ## OAuth callback route -/

/-- The inbound callback request: the request origin and the value of
the code query parameter (none when absent). -/
structure CallbackRequest where
  origin : String
  code : Option String
deriving Repr, DecidableEq

/-- The observable outcome of the callback handler: which code, if any,
was sent to the identity provider for exchange, and the redirect
destination. There is no error field: the handler carries none. -/
structure CallbackResult where
  exchangeAttempted : Option String
  redirectTo : String
deriving Repr, DecidableEq

/-- Source GET of the auth callback route: when the code parameter is
present and truthy, exchange it for a session and ignore the outcome;
always redirect to the subscription path under the request origin. The
exchange is passed in as a function and its result is discarded, as the
source discards the awaited result. -/
def callbackGET (req : CallbackRequest) (exchange : String → Except Unit Unit) :
    CallbackResult :=
  match req.code with
  | some c =>
    if c == "" then
      { exchangeAttempted := none, redirectTo := req.origin ++ "/subscription" }
    else
      let _ := exchange c
      { exchangeAttempted := some c, redirectTo := req.origin ++ "/subscription" }
  | none =>
    { exchangeAttempted := none, redirectTo := req.origin ++ "/subscription" }

/-! ## Helper lemmas -/

theorem sumCredits_foldl (js : List Job) (acc : Int) :
    js.foldl (fun sum j => sum + jobCredit j) acc = acc + sumCredits js := by
  induction js generalizing acc with
  | nil => simp [sumCredits]
  | cons j js ih =>
    simp only [sumCredits, List.foldl_cons] at *
    rw [ih, ih (0 + jobCredit j)]
    ring

theorem sumCredits_cons (j : Job) (js : List Job) :
    sumCredits (j :: js) = jobCredit j + sumCredits js := by
  simp only [sumCredits, List.foldl_cons]
  rw [sumCredits_foldl]
  ring_nf
  rw [sumCredits]

theorem sumCredits_eq_sum_map (js : List Job) :
    sumCredits js = (js.map jobCredit).sum := by
  induction js with
  | nil => simp [sumCredits]
  | cons j js ih => rw [sumCredits_cons, List.map_cons, List.sum_cons, ih]

theorem sumCredits_perm (l1 l2 : List Job) (h : l1.Perm l2) :
    sumCredits l1 = sumCredits l2 := by
  rw [sumCredits_eq_sum_map, sumCredits_eq_sum_map]
  exact (h.map jobCredit).sum_eq

theorem insertByDesc_perm (j : Job) (l : List Job) :
    (insertByDesc j l).Perm (j :: l) := by
  induction l with
  | nil => exact List.Perm.refl _
  | cons k ks ih =>
    simp only [insertByDesc]
    by_cases h : strLe k.created_at j.created_at = true
    · simp only [h, if_true]
      exact List.Perm.refl _
    · simp only [h, if_false]
      exact ((ih.cons k).trans (List.Perm.swap j k ks))

theorem sortByCreatedAtDesc_perm (l : List Job) :
    (sortByCreatedAtDesc l).Perm l := by
  induction l with
  | nil => exact List.Perm.refl _
  | cons j js ih =>
    exact (insertByDesc_perm j (sortByCreatedAtDesc js)).trans (ih.cons j)

theorem optGetD_getD {α : Type} (o : Option α) (x : α) :
    o.getD (o.getD x) = o.getD x := by
  cases o <;> rfl

theorem applyUpdate_idem (u : JobUpdate) (j : Job) :
    applyUpdate u (applyUpdate u j) = applyUpdate u j := by
  simp [applyUpdate, optGetD_getD]

theorem runUpdate_step_idem (pred : Job → Bool) (u : JobUpdate) (j : Job) :
    (fun k => if pred k then applyUpdate u k else k)
      ((fun k => if pred k then applyUpdate u k else k) j) =
    (fun k => if pred k then applyUpdate u k else k) j := by
  by_cases h : pred j = true
  · by_cases h2 : pred (applyUpdate u j) = true
    · simp [h, h2, applyUpdate_idem]
    · simp [h, h2]
  · simp [h]

theorem runUpdate_state_idem (db : DB) (fail : Bool) (pred : Job → Bool) (u : JobUpdate) :
    (runUpdate (runUpdate db fail pred u).1 fail pred u).1 = (runUpdate db fail pred u).1 := by
  cases fail with
  | true => rfl
  | false =>
    simp only [runUpdate, if_false, Bool.false_eq_true]
    congr 1
    rw [List.map_map]
    exact List.map_congr_left (fun j _ => runUpdate_step_idem pred u j)

theorem getSubscription_pair (db : DB) (f : Failures) :
    getSubscription db f = (db, (getSubscription db f).2) := rfl

theorem getJobsBetweenDates_pair (db : DB) (f : Failures) (a b c : Option String) :
    getJobsBetweenDates db f a b c = (db, (getJobsBetweenDates db f a b c).2) := rfl

theorem getJobs_pair (db : DB) (f : Failures) :
    getJobs db f = (db, (getJobs db f).2) := rfl

theorem creditBalance_subscribed_general (db : DB) (f : Failures) (sub : SubRow)
    (js : List Job)
    (hs : (getSubscription db f).2 = some sub)
    (hj : (getJobsBetweenDates db f
      sub.user_id sub.current_period_start sub.current_period_end).2 = some js) :
    (getCreditBalance db f).2 =
      { remaining := (subscriptionAllotment sub).sub (JsNum.num (sumCredits js)),
        outOf := subscriptionAllotment sub } := by
  have h1 : getSubscription db f = (db, some sub) := by
    rw [getSubscription_pair, hs]
  have h2 : getJobsBetweenDates db f
      sub.user_id sub.current_period_start sub.current_period_end = (db, some js) := by
    rw [getJobsBetweenDates_pair, hj]
  simp [getCreditBalance, h1, h2]

theorem creditBalance_subscribed_queryfail (db : DB) (f : Failures) (sub : SubRow)
    (hs : (getSubscription db f).2 = some sub)
    (hj : (getJobsBetweenDates db f
      sub.user_id sub.current_period_start sub.current_period_end).2 = none) :
    (getCreditBalance db f).2 =
      { remaining := (subscriptionAllotment sub).sub (JsNum.num 0),
        outOf := subscriptionAllotment sub } := by
  have h1 : getSubscription db f = (db, some sub) := by
    rw [getSubscription_pair, hs]
  have h2 : getJobsBetweenDates db f
      sub.user_id sub.current_period_start sub.current_period_end = (db, none) := by
    rw [getJobsBetweenDates_pair, hj]
  simp [getCreditBalance, h1, h2]

theorem creditBalance_free_general (db : DB) (f : Failures)
    (hs : (getSubscription db f).2 = none) :
    (getCreditBalance db f).2 =
      { remaining := JsNum.num (7500 -
          (if (getJobs db f).2.success then sumCredits ((getJobs db f).2.data.getD []) else 0)),
        outOf := JsNum.num 7500 } := by
  have h1 : getSubscription db f = (db, none) := by
    rw [getSubscription_pair, hs]
  simp only [getCreditBalance, h1]

/-! ## Concrete fixtures for witnesses and counterexamples -/

/-- A run on which no underlying query fails. -/
def fixNoFail : Failures :=
  ⟨false, false, false, false, false, false, false, false⟩

/-- A run on which every underlying query fails. -/
def fixAllFail : Failures :=
  ⟨true, true, true, true, true, true, true, true⟩

/-- An active subscription whose product metadata allots 500 credits. -/
def fixSub500 : SubRow :=
  { user_id := some "u1"
    status := "active"
    current_period_start := some "2024-01-01"
    current_period_end := some "2024-12-31"
    prices := some ⟨some ⟨Json.obj [("credits", Json.str "500")]⟩⟩ }

/-- An in-period job charging 400 credits. -/
def fixJobA : Job :=
  ⟨"1", some "u1", "done", "2024-06-01", some 400, none, none, none⟩

/-- An in-period job charging 200 credits. -/
def fixJobB : Job :=
  ⟨"2", some "u1", "done", "2024-06-02", some 200, none, none, none⟩

/-- A job with a null credits column. -/
def fixJobNoCredits : Job :=
  ⟨"3", some "u1", "done", "2024-06-03", none, none, none, none⟩

/-- Store for the subscribed overspend scenario: allotment 500, spent 600. -/
def fixDbOver : DB :=
  ⟨[⟨"u1"⟩], [fixSub500], [fixJobA, fixJobB], 3, "2024-06-05"⟩

/-- Store with no subscription rows at all. -/
def fixDbFree : DB :=
  ⟨[⟨"u1"⟩], [], [fixJobA, fixJobB, fixJobNoCredits], 4, "2024-06-05"⟩

/-- An active subscription whose product metadata credits field is the
non-numeric string abc. -/
def fixSubAbc : SubRow :=
  { user_id := some "u1"
    status := "active"
    current_period_start := some "2024-01-01"
    current_period_end := some "2024-12-31"
    prices := some ⟨some ⟨Json.obj [("credits", Json.str "abc")]⟩⟩ }

/-- Store for the malformed-metadata scenario. -/
def fixDbAbc : DB :=
  ⟨[⟨"u1"⟩], [fixSubAbc], [], 0, "2024-06-05"⟩

/-- An active subscription with no joined price row, so the optional
chain to the product metadata is undefined. -/
def fixSubNoMeta : SubRow :=
  { user_id := some "u1"
    status := "active"
    current_period_start := some "2024-01-01"
    current_period_end := some "2024-12-31"
    prices := none }

/-- Store for the absent-metadata scenario: one in-period job of 100. -/
def fixDbNoMeta : DB :=
  ⟨[⟨"u1"⟩], [fixSubNoMeta],
   [⟨"1", some "u1", "done", "2024-06-01", some 100, none, none, none⟩],
   2, "2024-06-05"⟩

/-- Store with an empty users table, so the single-row user lookup
yields null even without a query failure. -/
def fixDbNoUsers : DB := ⟨[], [], [], 0, "2024-06-05"⟩

/-- Store for the mutator contract: one job with a transcription id. -/
def fixDbTid : DB :=
  ⟨[⟨"u1"⟩], [],
   [⟨"1", some "u1", "processing", "2024-06-01", some 10, none, some "http://v", some "tr-1"⟩],
   2, "2024-06-05"⟩

/-- An update map setting only the status column. -/
def fixUpd : JobUpdate := { status := some "complete" }

/-! ## Claim theorems -/

/-- C1: when the subscription lookup yields an active-like subscription
whose product-metadata allotment coerces to the number A and the
in-period job query returns jobs whose credits sum to S,
getCreditBalance returns remaining = A - S and outOf = A; the formula
imposes no floor at zero, so remaining is negative whenever S > A. -/
theorem C1_subscribed_balance (db : DB) (f : Failures) (sub : SubRow)
    (A S : Int) (js : List Job)
    (hs : (getSubscription db f).2 = some sub)
    (hA : subscriptionAllotment sub = JsNum.num A)
    (hj : (getJobsBetweenDates db f
      sub.user_id sub.current_period_start sub.current_period_end).2 = some js)
    (hS : sumCredits js = S) :
    (getCreditBalance db f).2 =
      { remaining := JsNum.num (A - S), outOf := JsNum.num A } := by
  rw [creditBalance_subscribed_general db f sub js hs hj, hA, hS]
  simp [JsNum.sub]

/-- Witness for C1 at a concrete overspent store: allotment 500, spent
600, so remaining is the negative number 500 - 600. -/
theorem C1_subscribed_balance_witness :
    (getCreditBalance fixDbOver fixNoFail).2 =
      { remaining := JsNum.num (500 - 600), outOf := JsNum.num 500 } ∧
    (500 - 600 : Int) < 0 :=
  ⟨C1_subscribed_balance fixDbOver fixNoFail fixSub500 500 600 [fixJobA, fixJobB]
      rfl rfl rfl rfl,
   by decide⟩

/-- C2: with no subscription row in status trialing or active, the
balance is the free-tier 7500 against the credits summed over the whole
unfiltered jobs table returned by getJobs, with no billing-period,
user-id, or is_deleted filter applied. -/
theorem C2_free_tier_balance (db : DB) (f : Failures)
    (hs : db.subscriptions.filter activeLike = [])
    (hj : f.getJobsFail = false) :
    (getCreditBalance db f).2 =
      { remaining := JsNum.num (7500 - sumCredits db.jobs),
        outOf := JsNum.num 7500 } := by
  have hsub : (getSubscription db f).2 = none := by
    cases hf : f.subFail <;> simp [getSubscription, hf, hs]
  rw [creditBalance_free_general db f hsub]
  have hjobs : (getJobs db f).2 =
      { success := true, data := some (sortByCreatedAtDesc db.jobs) } := by
    simp [getJobs, hj]
  rw [hjobs]
  simp [sumCredits_perm _ _ (sortByCreatedAtDesc_perm db.jobs)]

/-- Witness for C2 at a concrete store holding three jobs, one of which
has a null credits column. -/
theorem C2_free_tier_balance_witness :
    (getCreditBalance fixDbFree fixNoFail).2 =
      { remaining := JsNum.num (7500 - sumCredits fixDbFree.jobs),
        outOf := JsNum.num 7500 } :=
  C2_free_tier_balance fixDbFree fixNoFail rfl rfl

/-- C3 counterexample: with a subscription whose product-metadata
credits field is the non-numeric string abc and an empty in-period job
list (S = 0), getCreditBalance does not return the claimed
remaining = 0 - S and outOf = 0; it returns NaN in both fields. -/
theorem C3_counterexample :
    (getCreditBalance fixDbAbc fixNoFail).2 ≠
      { remaining := JsNum.num (0 - 0), outOf := JsNum.num 0 } ∧
    (getCreditBalance fixDbAbc fixNoFail).2 =
      { remaining := JsNum.nan, outOf := JsNum.nan } := by
  constructor
  · decide
  · decide

/-- C3 (amended): in the part_002 variant, an undefined metadata chain,
a metadata value that is present but not an object (including SQL
null), a metadata object without a credits key, and a credits key
holding JSON null all make the allotment 0, giving remaining = 0 - S
and outOf = 0; but a credits key holding a string that is not a JS
numeric literal coerces to NaN, and both returned fields are then NaN.
The part_001 draft variant has no nullish fallback, so there an absent
metadata chain already yields a NaN allotment. -/
theorem C3_metadata_allotment_amended (db : DB) (f : Failures) (sub : SubRow)
    (js : List Job) (S : Int)
    (hs : (getSubscription db f).2 = some sub)
    (hj : (getJobsBetweenDates db f
      sub.user_id sub.current_period_start sub.current_period_end).2 = some js)
    (hS : sumCredits js = S) :
    ((sub.prices.bind Price.products).map Product.metadata = none →
      (getCreditBalance db f).2 =
        { remaining := JsNum.num (0 - S), outOf := JsNum.num 0 }) ∧
    (∀ m, (sub.prices.bind Price.products).map Product.metadata = some m →
      (∀ fields, m ≠ Json.obj fields) →
      (getCreditBalance db f).2 =
        { remaining := JsNum.num (0 - S), outOf := JsNum.num 0 }) ∧
    (∀ fields, (sub.prices.bind Price.products).map Product.metadata =
        some (Json.obj fields) →
      fields.lookup "credits" = none →
      (getCreditBalance db f).2 =
        { remaining := JsNum.num (0 - S), outOf := JsNum.num 0 }) ∧
    (∀ fields, (sub.prices.bind Price.products).map Product.metadata =
        some (Json.obj fields) →
      fields.lookup "credits" = some Json.null →
      (getCreditBalance db f).2 =
        { remaining := JsNum.num (0 - S), outOf := JsNum.num 0 }) ∧
    (∀ fields s, (sub.prices.bind Price.products).map Product.metadata =
        some (Json.obj fields) →
      fields.lookup "credits" = some (Json.str s) →
      parseJsNumberStr s = JsParse.nan →
      (getCreditBalance db f).2 =
        { remaining := JsNum.nan, outOf := JsNum.nan }) ∧
    ((sub.prices.bind Price.products).map Product.metadata = none →
      subscriptionAllotmentV1 sub = JsNum.nan) := by
  have hbal := creditBalance_subscribed_general db f sub js hs hj
  refine ⟨?_, ?_, ?_, ?_, ?_, ?_⟩
  · intro hmeta
    have hallot : subscriptionAllotment sub = JsNum.num 0 := by
      simp [subscriptionAllotment, hmeta]
    rw [hbal, hallot, hS]
    simp [JsNum.sub]
  · intro m hmeta hno
    have hallot : subscriptionAllotment sub = JsNum.num 0 := by
      simp only [subscriptionAllotment, hmeta]
      cases m with
      | null => rfl
      | bool b => rfl
      | num v => rfl
      | str s => rfl
      | obj fields => exact absurd rfl (hno fields)
      | arr es => rfl
    rw [hbal, hallot, hS]
    simp [JsNum.sub]
  · intro fields hmeta hlk
    have hallot : subscriptionAllotment sub = JsNum.num 0 := by
      simp [subscriptionAllotment, hmeta, hlk]
    rw [hbal, hallot, hS]
    simp [JsNum.sub]
  · intro fields hmeta hlk
    have hallot : subscriptionAllotment sub = JsNum.num 0 := by
      simp [subscriptionAllotment, hmeta, hlk]
    rw [hbal, hallot, hS]
    simp [JsNum.sub]
  · intro fields s hmeta hlk hparse
    have hallot : subscriptionAllotment sub = JsNum.nan := by
      simp [subscriptionAllotment, hmeta, hlk, jsNumber, hparse]
    rw [hbal, hallot]
    simp [JsNum.sub]
  · intro hmeta
    simp [subscriptionAllotmentV1, hmeta]

/-- Witness for the amended C3: a subscription with no joined price row
and one in-period job of 100 credits yields remaining = 0 - 100 and
outOf = 0 in the part_002 variant, while the part_001 allotment at the
same subscription is NaN. -/
theorem C3_metadata_allotment_amended_witness :
    (getCreditBalance fixDbNoMeta fixNoFail).2 =
      { remaining := JsNum.num (0 - 100), outOf := JsNum.num 0 } ∧
    subscriptionAllotmentV1 fixSubNoMeta = JsNum.nan :=
  ⟨(C3_metadata_allotment_amended fixDbNoMeta fixNoFail fixSubNoMeta
      [⟨"1", some "u1", "done", "2024-06-01", some 100, none, none, none⟩] 100
      rfl rfl rfl).1 rfl,
   (C3_metadata_allotment_amended fixDbNoMeta fixNoFail fixSubNoMeta
      [⟨"1", some "u1", "done", "2024-06-01", some 100, none, none, none⟩] 100
      rfl rfl rfl).2.2.2.2.2 rfl⟩

/-- C4: in the credits-spent fold used by both branches of
getCreditBalance, a job whose credits column is null or zero
contributes exactly 0, and the fold total equals the sum of the present
credits values. -/
theorem C4_job_credit_contribution (js : List Job) (j : Job) :
    ((j.credits = none ∨ j.credits = some 0) →
      sumCredits (j :: js) = sumCredits js) ∧
    sumCredits js = (js.filterMap Job.credits).sum := by
  constructor
  · intro h
    rw [sumCredits_cons]
    rcases h with h | h <;> simp [jobCredit, h]
  · induction js with
    | nil => simp [sumCredits]
    | cons k ks ih =>
      rw [sumCredits_cons, List.filterMap_cons]
      cases hk : k.credits with
      | none => simpa [jobCredit, hk] using ih
      | some v =>
        by_cases hv : v = 0
        · simp [jobCredit, hk, hv, ih]
        · simp [jobCredit, hk, hv, ih]

/-- Witness for C4: prepending the null-credits job leaves the sum
unchanged, and the sum over a concrete list equals the sum of its
present credits values. -/
theorem C4_job_credit_contribution_witness :
    sumCredits (fixJobNoCredits :: [fixJobA]) = sumCredits [fixJobA] ∧
    sumCredits [fixJobA] = ([fixJobA].filterMap Job.credits).sum :=
  ⟨(C4_job_credit_contribution [fixJobA] fixJobNoCredits).1 (Or.inl rfl),
   (C4_job_credit_contribution [fixJobA] fixJobNoCredits).2⟩

/-- C5: getCreditBalance always yields a balance pair, and each
underlying failure is absorbed: a subscription-lookup failure routes to
the free-tier branch, an in-period job-query failure counts zero spent
credits, and a free-tier listing failure counts zero spent credits so
the full 7500 remains. -/
theorem C5_failure_policy (db : DB) (f : Failures) :
    (∃ b : Balance, (getCreditBalance db f).2 = b) ∧
    (f.subFail = true →
      (getCreditBalance db f).2 =
        { remaining := JsNum.num (7500 -
            (if (getJobs db f).2.success then
              sumCredits ((getJobs db f).2.data.getD []) else 0)),
          outOf := JsNum.num 7500 }) ∧
    (∀ sub, (getSubscription db f).2 = some sub → f.jobsBetweenFail = true →
      (getCreditBalance db f).2 =
        { remaining := (subscriptionAllotment sub).sub (JsNum.num 0),
          outOf := subscriptionAllotment sub }) ∧
    (f.subFail = true → f.getJobsFail = true →
      (getCreditBalance db f).2 =
        { remaining := JsNum.num 7500, outOf := JsNum.num 7500 }) := by
  refine ⟨⟨(getCreditBalance db f).2, rfl⟩, ?_, ?_, ?_⟩
  · intro h
    have hsub : (getSubscription db f).2 = none := by
      simp [getSubscription, h]
    exact creditBalance_free_general db f hsub
  · intro sub hs hfail
    apply creditBalance_subscribed_queryfail db f sub hs
    simp [getJobsBetweenDates, hfail]
  · intro h1 h2
    have hsub : (getSubscription db f).2 = none := by
      simp [getSubscription, h1]
    rw [creditBalance_free_general db f hsub]
    simp [getJobs, h2]

/-- Witness for C5: with every query failing, the balance is the full
free-tier pair. -/
theorem C5_failure_policy_witness :
    (getCreditBalance fixDbOver fixAllFail).2 =
      { remaining := JsNum.num 7500, outOf := JsNum.num 7500 } :=
  (C5_failure_policy fixDbOver fixAllFail).2.2.2 rfl rfl

/-- C6: every job mutator returns the mutated row set and never
raises: on a query failure each returns the empty array; on success
insertJob returns exactly the row it appended to the store, each update
variant returns exactly the rewritten rows matching its key, and a
transcription id matching zero rows yields the empty list with no error
surfaced. -/
theorem C6_mutators_contract (db : DB) (f : Failures)
    (jobId url tid : String) (u : JobUpdate) :
    (f.insertFail = true → (insertJob db f).2 = []) ∧
    (f.updateFail = true → (updateJob jobId u db f).2 = []) ∧
    (f.updateByUrlFail = true →
      (updateJobByOriginalVideoUrl url u db f).2 = []) ∧
    (f.updateByTidFail = true →
      (updateJobByTranscriptionId tid u db f).2 = []) ∧
    (f.insertFail = false →
      (insertJob db f).2 =
        [{ id := toString db.nextId
           user_id := ((getUserDetails db f).2).map User.id
           status := "pending"
           created_at := db.now
           credits := none
           is_deleted := none
           original_video_url := none
           transcription_id := none }] ∧
      (insertJob db f).1.jobs = db.jobs ++ (insertJob db f).2) ∧
    (f.updateFail = false →
      (updateJob jobId u db f).2 =
        (db.jobs.filter (fun j => j.id == jobId)).map (applyUpdate u)) ∧
    (f.updateByUrlFail = false →
      (updateJobByOriginalVideoUrl url u db f).2 =
        (db.jobs.filter (fun j => j.original_video_url == some url)).map
          (applyUpdate u)) ∧
    (f.updateByTidFail = false →
      (updateJobByTranscriptionId tid u db f).2 =
        (db.jobs.filter (fun j => j.transcription_id == some tid)).map
          (applyUpdate u)) ∧
    (db.jobs.filter (fun j => j.transcription_id == some tid) = [] →
      (updateJobByTranscriptionId tid u db f).2 = []) := by
  refine ⟨?_, ?_, ?_, ?_, ?_, ?_, ?_, ?_, ?_⟩ <;> intro h
  · simp [insertJob, getUserDetails, h]
  · simp [updateJob, runUpdate, h]
  · simp [updateJobByOriginalVideoUrl, runUpdate, h]
  · simp [updateJobByTranscriptionId, runUpdate, h]
  · constructor <;> simp [insertJob, getUserDetails, h]
  · simp [updateJob, runUpdate, h]
  · simp [updateJobByOriginalVideoUrl, runUpdate, h]
  · simp [updateJobByTranscriptionId, runUpdate, h]
  · cases hf : f.updateByTidFail <;>
      simp [updateJobByTranscriptionId, runUpdate, hf, h]

/-- Witness for C6: failing mutators return empty arrays; successful
runs return the appended row for insertJob and the rewritten matching
rows for each update variant; an unmatched transcription id returns the
empty list. -/
theorem C6_mutators_contract_witness :
    (insertJob fixDbTid fixAllFail).2 = [] ∧
    (updateJob "1" fixUpd fixDbTid fixAllFail).2 = [] ∧
    (updateJobByOriginalVideoUrl "http://v" fixUpd fixDbTid fixAllFail).2 = [] ∧
    (updateJobByTranscriptionId "tr-1" fixUpd fixDbTid fixAllFail).2 = [] ∧
    (insertJob fixDbTid fixNoFail).2 =
      [{ id := toString fixDbTid.nextId
         user_id := ((getUserDetails fixDbTid fixNoFail).2).map User.id
         status := "pending"
         created_at := fixDbTid.now
         credits := none
         is_deleted := none
         original_video_url := none
         transcription_id := none }] ∧
    (updateJob "1" fixUpd fixDbTid fixNoFail).2 =
      (fixDbTid.jobs.filter (fun j => j.id == "1")).map (applyUpdate fixUpd) ∧
    (updateJobByOriginalVideoUrl "http://v" fixUpd fixDbTid fixNoFail).2 =
      (fixDbTid.jobs.filter (fun j => j.original_video_url == some "http://v")).map
        (applyUpdate fixUpd) ∧
    (updateJobByTranscriptionId "tr-1" fixUpd fixDbTid fixNoFail).2 =
      (fixDbTid.jobs.filter (fun j => j.transcription_id == some "tr-1")).map
        (applyUpdate fixUpd) ∧
    (updateJobByTranscriptionId "tr-none" fixUpd fixDbTid fixNoFail).2 = [] :=
  ⟨(C6_mutators_contract fixDbTid fixAllFail "1" "http://v" "tr-1" fixUpd).1 rfl,
   (C6_mutators_contract fixDbTid fixAllFail "1" "http://v" "tr-1" fixUpd).2.1 rfl,
   (C6_mutators_contract fixDbTid fixAllFail "1" "http://v" "tr-1" fixUpd).2.2.1 rfl,
   (C6_mutators_contract fixDbTid fixAllFail "1" "http://v" "tr-1" fixUpd).2.2.2.1 rfl,
   ((C6_mutators_contract fixDbTid fixNoFail "1" "http://v" "tr-1" fixUpd).2.2.2.2.1 rfl).1,
   (C6_mutators_contract fixDbTid fixNoFail "1" "http://v" "tr-1" fixUpd).2.2.2.2.2.1 rfl,
   (C6_mutators_contract fixDbTid fixNoFail "1" "http://v" "tr-1" fixUpd).2.2.2.2.2.2.1 rfl,
   (C6_mutators_contract fixDbTid fixNoFail "1" "http://v" "tr-1" fixUpd).2.2.2.2.2.2.2.1 rfl,
   (C6_mutators_contract fixDbTid fixNoFail "1" "http://v" "tr-none" fixUpd).2.2.2.2.2.2.2.2 rfl⟩

/-- C7: the by-id update mutator is idempotent on the store: running
the same id and field map twice leaves the jobs table in the same final
state as running it once. -/
theorem C7_updateJob_idempotent (db : DB) (f : Failures)
    (jobId : String) (u : JobUpdate) :
    (updateJob jobId u (updateJob jobId u db f).1 f).1 =
      (updateJob jobId u db f).1 :=
  runUpdate_state_idem db f.updateFail (fun j => j.id == jobId) u

/-- C8: getCreditBalance is read-only: it threads the store through
select queries only, so the final store equals the initial store for
every starting state and failure pattern. -/
theorem C8_creditBalance_read_only (db : DB) (f : Failures) :
    (getCreditBalance db f).1 = db := by
  cases hs : (getSubscription db f).2 with
  | none =>
    have h1 : getSubscription db f = (db, none) := by
      rw [getSubscription_pair, hs]
    simp [getCreditBalance, h1, getJobs]
  | some sub =>
    have h1 : getSubscription db f = (db, some sub) := by
      rw [getSubscription_pair, hs]
    simp [getCreditBalance, h1, getJobsBetweenDates]

/-- C9: the OAuth callback always redirects to the subscription path
under the request origin; with no code parameter no exchange is
attempted, and the whole observable outcome is independent of the
exchange result, so a failed exchange produces the same redirect with
no error indicator. -/
theorem C9_callback_fixed_redirect (req : CallbackRequest)
    (exchange : String → Except Unit Unit) :
    (callbackGET req exchange).redirectTo = req.origin ++ "/subscription" ∧
    (req.code = none → (callbackGET req exchange).exchangeAttempted = none) ∧
    (∀ g : String → Except Unit Unit, callbackGET req exchange = callbackGET req g) := by
  refine ⟨?_, ?_, ?_⟩
  · cases hc : req.code with
    | none => simp [callbackGET, hc]
    | some c => by_cases h : (c == "") = true <;> simp [callbackGET, hc, h]
  · intro h
    simp [callbackGET, h]
  · intro g
    cases hc : req.code with
    | none => simp [callbackGET, hc]
    | some c => by_cases h : (c == "") = true <;> simp [callbackGET, hc, h]

/-- Witness for C9 at a concrete request with no code parameter and a
failing exchange function. -/
theorem C9_callback_fixed_redirect_witness :
    (callbackGET ⟨"https://app.example", none⟩ (fun _ => Except.error ())).redirectTo =
      "https://app.example" ++ "/subscription" ∧
    (callbackGET ⟨"https://app.example", none⟩ (fun _ => Except.error ())).exchangeAttempted =
      none :=
  ⟨(C9_callback_fixed_redirect ⟨"https://app.example", none⟩ (fun _ => Except.error ())).1,
   (C9_callback_fixed_redirect ⟨"https://app.example", none⟩ (fun _ => Except.error ())).2.1 rfl⟩

/-- C10: when the user-details lookup yields null, insertJob does not
short-circuit: it still appends a pending job whose user_id column is
null and returns the nonempty inserted row set. -/
theorem C10_insertJob_without_user (db : DB) (f : Failures)
    (hu : (getUserDetails db f).2 = none)
    (hi : f.insertFail = false) :
    (insertJob db f).1.jobs = db.jobs ++
      [{ id := toString db.nextId
         user_id := none
         status := "pending"
         created_at := db.now
         credits := none
         is_deleted := none
         original_video_url := none
         transcription_id := none }] ∧
    (insertJob db f).2 ≠ [] := by
  have h1 : getUserDetails db f = (db, none) := by
    rw [show getUserDetails db f = (db, (getUserDetails db f).2) from rfl, hu]
  constructor
  · simp [insertJob, h1, hi]
  · simp [insertJob, h1, hi]

/-- Witness for C10 at a store whose users table is empty, so the
single-row lookup yields null without any query failure. -/
theorem C10_insertJob_without_user_witness :
    (insertJob fixDbNoUsers fixNoFail).1.jobs = fixDbNoUsers.jobs ++
      [{ id := toString fixDbNoUsers.nextId
         user_id := none
         status := "pending"
         created_at := fixDbNoUsers.now
         credits := none
         is_deleted := none
         original_video_url := none
         transcription_id := none }] ∧
    (insertJob fixDbNoUsers fixNoFail).2 ≠ [] :=
  C10_insertJob_without_user fixDbNoUsers fixNoFail rfl rfl
